import Mathlib

/-!
Shallow embedding of `pybtc/functions/script.py` (script classifier,
disassembler, subscript remover, push-data codec, DER signature codec)
and proofs about it.  Scripts and signatures are byte sequences, modelled
as `List Nat` with each element a byte value.  Python exceptions are
modelled with `Except`/`Option`; `try/except` blocks that swallow an
exception are modelled by the recovery the source performs.
-/

/-- Bitwise AND on `Nat`, used to embed Python's `x & 0x80` tests. -/
def bitAnd (a b : Nat) : Nat := Nat.land a b

/-- Embedding of `is_valid_signature_encoding(sig)` from
`pybtc/functions/script.py` (lines 421-486): the strict DER well-formedness
validator.  The checks are performed in the exact order of the source. -/
def is_valid_signature_encoding (sig : List Nat) : Bool :=
  if sig.length < 9 ∨ sig.length > 73 then false
  else if sig.getD 0 0 ≠ 0x30 then false
  else if sig.getD 1 0 ≠ sig.length - 3 then false
  else if 5 + sig.getD 3 0 ≥ sig.length then false
  else if sig.getD 3 0 + sig.getD (5 + sig.getD 3 0) 0 + 7 ≠ sig.length then false
  else if sig.getD 2 0 ≠ 0x02 then false
  else if sig.getD 3 0 = 0 then false
  else if bitAnd (sig.getD 4 0) 0x80 ≠ 0 then false
  else if sig.getD 3 0 > 1 ∧ sig.getD 4 0 = 0 ∧ bitAnd (sig.getD 5 0) 0x80 = 0 then false
  else if sig.getD (sig.getD 3 0 + 4) 0 ≠ 0x02 then false
  else if sig.getD (5 + sig.getD 3 0) 0 = 0 then false
  else if bitAnd (sig.getD (sig.getD 3 0 + 6) 0) 0x80 ≠ 0 then false
  else if sig.getD (5 + sig.getD 3 0) 0 > 1 ∧ sig.getD (sig.getD 3 0 + 6) 0 = 0 ∧
          bitAnd (sig.getD (sig.getD 3 0 + 7) 0) 0x80 = 0 then false
  else true

/-- Embedding of `parse_signature(sig)` from `pybtc/functions/script.py`
(lines 488-555).  A raised `ValueError("invalid signature")` is modelled as
`none`; on success the source returns the pair
`(sig[5:4+len_r], sig[len_r+6:-1])`, embedded with `drop`/`take` slices. -/
def parse_signature (sig : List Nat) : Option (List Nat × List Nat) :=
  if sig.length < 9 ∨ sig.length > 73 then none
  else if sig.getD 0 0 ≠ 0x30 then none
  else if sig.getD 1 0 ≠ sig.length - 3 then none
  else if 5 + sig.getD 3 0 ≥ sig.length then none
  else if sig.getD 3 0 + sig.getD (5 + sig.getD 3 0) 0 + 7 ≠ sig.length then none
  else if sig.getD 2 0 ≠ 0x02 then none
  else if sig.getD 3 0 = 0 then none
  else if bitAnd (sig.getD 4 0) 0x80 ≠ 0 then none
  else if sig.getD 3 0 > 1 ∧ sig.getD 4 0 = 0 ∧ bitAnd (sig.getD 5 0) 0x80 = 0 then none
  else if sig.getD (sig.getD 3 0 + 4) 0 ≠ 0x02 then none
  else if sig.getD (5 + sig.getD 3 0) 0 = 0 then none
  else if bitAnd (sig.getD (sig.getD 3 0 + 6) 0) 0x80 ≠ 0 then none
  else if sig.getD (5 + sig.getD 3 0) 0 > 1 ∧ sig.getD (sig.getD 3 0 + 6) 0 = 0 ∧
          bitAnd (sig.getD (sig.getD 3 0 + 7) 0) 0x80 = 0 then none
  else some ((sig.drop 5).take (4 + sig.getD 3 0 - 5),
             (sig.drop (sig.getD 3 0 + 6)).take (sig.length - 1 - (sig.getD 3 0 + 6)))

/-- Re-encoding of an `(r, s)` pair with the envelope's length-prefix rules:
`0x30, total length, 0x02, len(r), r, 0x02, len(s), s` plus the one-byte
sighash suffix.  The total-length byte is `len(r) + len(s) + 4`, i.e. the
byte count of everything that follows it excluding the sighash byte. -/
def reencode_signature (r s : List Nat) (suffix : Nat) : List Nat :=
  [0x30, r.length + s.length + 4, 0x02, r.length] ++ r ++
    [0x02, s.length] ++ s ++ [suffix]

/-- Modelled from the spec: the opcode constant `OP_PUSHDATA1` from
`pybtc.opcodes` (that module is not under `src/`); the spec's §6 table fixes
its numeric value 0x4c.  In the source the constant is joined into byte
strings and compared against byte values, so it is embedded as the byte
value itself. -/
def OP_PUSHDATA1 : Nat := 0x4c

/-- Modelled from the spec: the opcode constant `OP_PUSHDATA2` (0x4d). -/
def OP_PUSHDATA2 : Nat := 0x4d

/-- Modelled from the spec: the opcode constant `OP_PUSHDATA4` (0x4e). -/
def OP_PUSHDATA4 : Nat := 0x4e

/-- Modelled from the spec: `int_to_bytes(n, byteorder="little")` from
`pybtc.functions.tools` (not under `src/`).  Spec §4.1 prescribes a
little-endian 2-byte length field for PUSHDATA2 and a 4-byte one for
PUSHDATA4, so the encoder is embedded with those explicit widths. -/
def int_to_bytes_le (value width : Nat) : List Nat :=
  (List.range width).map fun i => value / 256 ^ i % 256

/-- Embedding of `op_push_data(data)` from `pybtc/functions/script.py`
(lines 291-300): minimal push-data encoding of a payload. -/
def op_push_data (data : List Nat) : List Nat :=
  if data.length ≤ 0x4b then [data.length] ++ data
  else if data.length ≤ 0xff then [OP_PUSHDATA1, data.length] ++ data
  else if data.length ≤ 0xffff then [OP_PUSHDATA2] ++ int_to_bytes_le data.length 2 ++ data
  else [OP_PUSHDATA4] ++ int_to_bytes_le data.length 4 ++ data

/-- Embedding of `read_opcode(stream)` from `pybtc/functions/script.py`
(lines 314-328).  The stream is modelled as the underlying byte list plus a
cursor; `stream.read(n)` returns up to `n` bytes and advances the cursor by
the number of bytes actually read.  The source returns `(None, None)` at end
of stream, `(opcode, payload)` for pushes and `(opcode, None)` otherwise.
In the PUSHDATA1 branch `read(read(1)[0])` raises `IndexError` when the
length byte is missing; in the PUSHDATA2/4 branches the source computes
`unpack("<H", read(2)[0])` / `unpack("<L", read(4)[0])`, which passes the
single integer `read(..)[0]` to `unpack` instead of the byte buffer and
therefore always raises (`IndexError` at end of stream, `struct.error`
otherwise); both raises are embedded as `Except.error`. -/
def read_opcode (data : List Nat) (pos : Nat) :
    Except String (Option (List Nat) × Option (List Nat) × Nat) :=
  if (data.drop pos).take 1 = [] then Except.ok (none, none, pos)
  else if ((data.drop pos).take 1).headD 0 ≤ 0x4b then
    Except.ok (some ((data.drop pos).take 1),
               some ((data.drop (pos + 1)).take (((data.drop pos).take 1).headD 0)),
               pos + 1 + ((data.drop (pos + 1)).take (((data.drop pos).take 1).headD 0)).length)
  else if ((data.drop pos).take 1).headD 0 = OP_PUSHDATA1 then
    match (data.drop (pos + 1)).take 1 with
    | [] => Except.error "IndexError: index out of range"
    | ld :: _ =>
      Except.ok (some ((data.drop pos).take 1),
                 some ((data.drop (pos + 2)).take ld),
                 pos + 2 + ((data.drop (pos + 2)).take ld).length)
  else if ((data.drop pos).take 1).headD 0 = OP_PUSHDATA2 then
    Except.error "unpack of read(2)[0]: not a 2-byte buffer"
  else if ((data.drop pos).take 1).headD 0 = OP_PUSHDATA4 then
    Except.error "unpack of read(4)[0]: not a 4-byte buffer"
  else Except.ok (some ((data.drop pos).take 1), none, pos + 1)

/-- The dictionary a `parse_script` call returns, embedded as a structure.
Keys absent from a given return dictionary are `none`.  `reqSigs` is
`Option Nat` because the source stores `None` for P2SH/P2WSH. -/
structure ParseResult where
  nType : Nat
  type : String
  reqSigs : Option Nat
  addressHash : Option (List Nat) := none
  data : Option (List Nat) := none
  script : Option (List Nat) := none
  pubKeys : Option Nat := none
deriving Repr, DecidableEq

/-- The mutable state of the generic fallback walk of `parse_script`
(lines 83-128): cursor `s`, running push count `m`, candidate threshold `n`,
the doubled-small-integer countdown `last` and the signature tally. -/
structure WalkSt where
  s : Nat
  m : Nat
  n : Nat
  last : Nat
  reqSigs : Nat
deriving Repr, DecidableEq

/-- Outcome of one iteration of the generic walk: continue with the updated
state, or `break` out of the loop (a swallowed exception in a PUSHDATA
branch) carrying the signature tally accumulated so far. -/
inductive StepRes where
  | cont (st : WalkSt)
  | brk (reqSigs : Nat)
deriving Repr, DecidableEq

/-- The bottom of the loop body: `if last: last -= 1` followed by `s += 1`
(lines 126-128).  On `Nat`, `last - 1` equals the conditional decrement. -/
def walkFinish (st : WalkSt) : WalkSt :=
  { st with s := st.s + 1, last := st.last - 1 }

/-- One iteration of the generic fallback walk of `parse_script`
(lines 84-128), for a state with `st.s < script.length`.  The `try/except`
blocks around the PUSHDATA length-field reads turn an out-of-bounds read
into `break`; all other reads are in bounds. -/
def walkStep (script : List Nat) (st : WalkSt) : StepRes :=
  if 81 ≤ script.getD st.s 0 ∧ script.getD st.s 0 ≤ 96 then
    StepRes.cont (walkFinish (
      if st.n = 0 then { st with n := script.getD st.s 0 - 80 }
      else if st.m = 0 then { st with n := script.getD st.s 0 - 80, m := 0 }
      else if st.n > st.m then { st with n := script.getD st.s 0 - 80, m := 0 }
      else if st.m = script.getD st.s 0 - 80 then
        { st with last := if st.last ≠ 0 then 0 else 2 }
      else st))
  else if script.getD st.s 0 < 0x4c then
    StepRes.cont (walkFinish (
      if st.m + 1 > 16 then { st with s := st.s + script.getD st.s 0, m := 0, n := 0 }
      else { st with s := st.s + script.getD st.s 0, m := st.m + 1 }))
  else if script.getD st.s 0 = 0x4c then
    if st.s + 1 < script.length then
      StepRes.cont (walkFinish { st with s := st.s + 1 + script.getD (st.s + 1) 0 })
    else StepRes.brk st.reqSigs
  else if script.getD st.s 0 = 0x4d then
    if st.s + 3 ≤ script.length then
      StepRes.cont (walkFinish { st with
        s := st.s + 2 + (script.getD (st.s + 1) 0 + 256 * script.getD (st.s + 2) 0) })
    else StepRes.brk st.reqSigs
  else if script.getD st.s 0 = 0x4e then
    if st.s + 5 ≤ script.length then
      StepRes.cont (walkFinish { st with
        s := st.s + 4 + (script.getD (st.s + 1) 0 + 256 * script.getD (st.s + 2) 0 +
             65536 * script.getD (st.s + 3) 0 + 16777216 * script.getD (st.s + 4) 0) })
    else StepRes.brk st.reqSigs
  else
    StepRes.cont (walkFinish { st with
      reqSigs :=
        if script.getD st.s 0 = 172 then st.reqSigs + 1
        else if script.getD st.s 0 = 173 then st.reqSigs + 1
        else if script.getD st.s 0 = 174 ∨ script.getD st.s 0 = 175 then
          (if st.last ≠ 0 then st.reqSigs + st.n else st.reqSigs + 20)
        else st.reqSigs,
      n := 0, m := 0 })

/-- The generic fallback walk `while l - s > 0: ...` of `parse_script`,
returning the accumulated `req_sigs`.  The loop advances the cursor by at
least one byte per iteration, so running it with fuel `script.length` from
cursor 0 is exact; on fuel exhaustion the loop is abandoned with the
current tally (unreachable when the fuel bounds the remaining bytes, see
`parseLoopF_fuel_irrelevant`). -/
def parseLoopF : Nat → List Nat → WalkSt → Nat
  | 0, _, st => st.reqSigs
  | fuel + 1, script, st =>
    if st.s < script.length then
      match walkStep script st with
      | StepRes.cont st2 => parseLoopF fuel script st2
      | StepRes.brk r => r
    else st.reqSigs

/-- The interior scan of the bare-multisig recognizer (lines 70-78):
`c, s = 0, 1; while l - 2 - s > 0: ...` counting raw-push units; a byte
`>= 0x4c` sets the count to 0 and breaks.  Returns the final `c`.  Fuel
works as in `parseLoopF`. -/
def msScanF : Nat → List Nat → Nat → Nat → Nat
  | 0, _, _, c => c
  | fuel + 1, script, s, c =>
    if s + 2 < script.length then
      if script.getD s 0 < 0x4c then msScanF fuel script (s + script.getD s 0 + 1) (c + 1)
      else 0
    else c

/-- The `NON_STANDARD` dictionary returned after the generic fallback walk
(line 129). -/
def generic_walk_result (script : List Nat) : ParseResult :=
  { nType := 7, type := "NON_STANDARD",
    reqSigs := some (parseLoopF script.length script ⟨0, 0, 0, 0, 0⟩),
    script := some script }

/-- The dictionary returned for an empty script (line 35). -/
def empty_script_result : ParseResult :=
  { nType := 7, type := "NON_STANDARD", reqSigs := some 0, script := some [] }

/-- The P2WPKH dictionary (line 40). -/
def p2wpkh_result (script : List Nat) : ParseResult :=
  { nType := 5, type := "P2WPKH", reqSigs := some 1, addressHash := some (script.drop 2) }

/-- The P2WSH dictionary (line 42). -/
def p2wsh_result (script : List Nat) : ParseResult :=
  { nType := 6, type := "P2WSH", reqSigs := none, addressHash := some (script.drop 2) }

/-- The P2PKH dictionary (line 46); `script[3:-2]` is the embedded hash. -/
def p2pkh_result (script : List Nat) : ParseResult :=
  { nType := 0, type := "P2PKH", reqSigs := some 1,
    addressHash := some ((script.drop 3).take (script.length - 5)) }

/-- The P2SH dictionary (line 50); `script[2:-1]` is the embedded hash. -/
def p2sh_result (script : List Nat) : ParseResult :=
  { nType := 1, type := "P2SH", reqSigs := none,
    addressHash := some ((script.drop 2).take (script.length - 3)) }

/-- The PUBKEY dictionary (lines 52, 54); the hash of `script[1:-1]`. -/
def pubkey_result (hash160 : List Nat → List Nat) (script : List Nat) : ParseResult :=
  { nType := 2, type := "PUBKEY", reqSigs := some 1,
    addressHash := some (hash160 ((script.drop 1).take (script.length - 2))) }

/-- A NULL_DATA dictionary carrying payload `d` (lines 57, 60, 64). -/
def null_data_result (d : List Nat) : ParseResult :=
  { nType := 3, type := "NULL_DATA", reqSigs := some 0, data := some d }

/-- The NULL_DATA_NON_STANDARD dictionary (line 65). -/
def null_data_ns_result (script : List Nat) : ParseResult :=
  { nType := 8, type := "NULL_DATA_NON_STANDARD", reqSigs := some 0, script := some script }

/-- The MULTISIG dictionary (lines 80-81). -/
def multisig_result (script : List Nat) : ParseResult :=
  { nType := 4, type := "MULTISIG", reqSigs := some (script.getD 0 0 - 80),
    pubKeys := some (msScanF script.length script 1 0), script := some script }

/-- The `OP_RETURN` block of `parse_script` (lines 55-65): the inner
template tests, falling through to `NULL_DATA_NON_STANDARD`. -/
def op_return_branch (script : List Nat) : ParseResult :=
  if script.length = 1 then null_data_result []
  else if script.getD 1 0 < 0x4c then
    if script.getD 1 0 = script.length - 2 then null_data_result (script.drop 2)
    else null_data_ns_result script
  else if script.getD 1 0 = 0x4c then
    if script.length > 2 ∧ script.getD 2 0 = script.length - 3 ∧ script.getD 2 0 ≤ 80 then
      null_data_result (script.drop 3)
    else null_data_ns_result script
  else null_data_ns_result script

/-- The bare-multisig template test of `parse_script` (lines 67-81), entered
when the first byte is a small integer and the last byte is
`OP_CHECKMULTISIG`; on mismatch it falls through to the generic walk.
Reading `script[-2]` raises `IndexError` when the script is a single byte
(unreachable: that byte would have to be both a small integer and 174). -/
def multisig_or_generic (script : List Nat) : Except String ParseResult :=
  if script.length < 2 then Except.error "IndexError: script index out of range"
  else if (81 ≤ script.getD (script.length - 2) 0 ∧
           script.getD (script.length - 2) 0 ≤ 96) ∧
          script.getD 0 0 ≤ script.getD (script.length - 2) 0 then
    if msScanF script.length script 1 0 = script.getD (script.length - 2) 0 - 80 then
      Except.ok (multisig_result script)
    else Except.ok (generic_walk_result script)
  else Except.ok (generic_walk_result script)

/-- Embedding of `parse_script(script, segwit)` from
`pybtc/functions/script.py` (lines 19-129).  The external `hash160`
digest (an out-of-scope collaborator per the spec) is a parameter.
Python slices `script[a:b]` become `drop`/`take`; the negative index
`script[-2]`, read in the multisig template test, raises `IndexError`
when the script is shorter than 2 bytes, embedded as `Except.error`
(that branch is in fact unreachable, see `parse_script_total`). -/
def parse_script (hash160 : List Nat → List Nat) (script : List Nat) (segwit : Bool) :
    Except String ParseResult :=
  if script = [] then Except.ok empty_script_result
  else if segwit = true ∧ script.length = 22 ∧ script.getD 0 0 = 0 then
    Except.ok (p2wpkh_result script)
  else if segwit = true ∧ script.length = 34 ∧ script.getD 0 0 = 0 then
    Except.ok (p2wsh_result script)
  else if script.length = 25 ∧ script.take 2 = [0x76, 0xa9] ∧
          script.drop (script.length - 2) = [0x88, 0xac] then
    Except.ok (p2pkh_result script)
  else if script.length = 23 ∧ script.getD 0 0 = 169 ∧
          script.getD (script.length - 1) 0 = 135 then
    Except.ok (p2sh_result script)
  else if script.length = 67 ∧ script.getD (script.length - 1) 0 = 172 then
    Except.ok (pubkey_result hash160 script)
  else if script.length = 35 ∧ script.getD (script.length - 1) 0 = 172 then
    Except.ok (pubkey_result hash160 script)
  else if script.getD 0 0 = 106 then Except.ok (op_return_branch script)
  else if 81 ≤ script.getD 0 0 ∧ script.getD 0 0 ≤ 96 ∧
          script.getD (script.length - 1) 0 = 174 then
    multisig_or_generic script
  else Except.ok (generic_walk_result script)

/-- Specification-side view of the interior of a multisig script: the
number of raw-push units a greedy left-to-right walk finds, where each unit
is a length byte `< 0x4c` (zero-length allowed) followed by that many
payload bytes, the final unit being allowed to overrun the end of the
list; `none` when a unit starts with a byte `>= 0x4c`. -/
def countUnits : List Nat → Option Nat
  | [] => some 0
  | b :: rest =>
    if b < 0x4c then (countUnits (rest.drop b)).map (fun k => k + 1) else none
termination_by l => l.length
decreasing_by simp only [List.length_drop, List.length_cons]; omega

/-- The structural condition under which `parse_script` classifies a script
as bare multisig: small-integer first byte `m`, last byte
`OP_CHECKMULTISIG`, small-integer second-to-last byte `n >= m`, and the
greedy raw-push walk of the interior bytes (positions `1 .. l-3`) counts
exactly `n` units. -/
def MultisigCond (script : List Nat) : Prop :=
  script ≠ [] ∧
  81 ≤ script.getD 0 0 ∧ script.getD 0 0 ≤ 96 ∧
  script.getD (script.length - 1) 0 = 174 ∧
  81 ≤ script.getD (script.length - 2) 0 ∧ script.getD (script.length - 2) 0 ≤ 96 ∧
  script.getD 0 0 ≤ script.getD (script.length - 2) 0 ∧
  countUnits ((script.drop 1).take (script.length - 3)) =
    some (script.getD (script.length - 2) 0 - 80)

instance (script : List Nat) : Decidable (MultisigCond script) := by
  unfold MultisigCond; infer_instance

/-- A push unit at the walk cursor whose declared payload length runs past
the end of the buffer, or a PUSHDATA unit whose length field itself is
truncated: a raw push reaching past the last byte, or PUSHDATA1/2/4 whose
1/2/4-byte little-endian length field is incomplete or whose payload end
lies beyond the buffer. -/
def OverrunPush (script : List Nat) (st : WalkSt) : Prop :=
  (script.getD st.s 0 < 0x4c ∧ script.length < st.s + script.getD st.s 0 + 1) ∨
  (script.getD st.s 0 = 0x4c ∧
    (script.length ≤ st.s + 1 ∨
     script.length < st.s + 2 + script.getD (st.s + 1) 0)) ∨
  (script.getD st.s 0 = 0x4d ∧
    (script.length < st.s + 3 ∨
     script.length < st.s + 3 + (script.getD (st.s + 1) 0 + 256 * script.getD (st.s + 2) 0))) ∨
  (script.getD st.s 0 = 0x4e ∧
    (script.length < st.s + 5 ∨
     script.length < st.s + 5 + (script.getD (st.s + 1) 0 + 256 * script.getD (st.s + 2) 0 +
       65536 * script.getD (st.s + 3) 0 + 16777216 * script.getD (st.s + 4) 0)))

/-- A minimal well-formed DER signature, `30 06 02 01 01 02 01 01 01`:
`len_r = len_s = 1`, `r = 01`, `s = 01`, sighash byte `01`. -/
def c1sig : List Nat := [0x30, 0x06, 0x02, 0x01, 0x01, 0x02, 0x01, 0x01, 0x01]

/-- A 256-byte payload, forcing the PUSHDATA2 encoding. -/
def c3payload : List Nat := List.replicate 256 0

instance (script : List Nat) (st : WalkSt) : Decidable (OverrunPush script st) := by
  unfold OverrunPush; infer_instance

/-- The 2-of-3 bare multisig example script:
`OP_2 <1:aa> <1:bb> <1:cc> OP_3 OP_CHECKMULTISIG`. -/
def c4example : List Nat := [82, 1, 170, 1, 187, 1, 204, 83, 174]

/-- The canonical 25-byte P2PKH script with push opcode 0x14. -/
def c8canonical : List Nat := [0x76, 0xa9, 0x14] ++ List.replicate 20 0xbb ++ [0x88, 0xac]

/-- Modelled from the spec: the opcode-value-to-name table `RAW_OPCODE`
from `pybtc.opcodes` (not under `src/`).  Only the opcode values whose
names and numbers the spec's §6 table fixes are included; every other
value is treated as absent from the table (a `KeyError` in the source). -/
def RAW_OPCODE (b : Nat) : Option String :=
  if b = 0x4c then some "OP_PUSHDATA1"
  else if b = 0x4d then some "OP_PUSHDATA2"
  else if b = 0x4e then some "OP_PUSHDATA4"
  else if b = 0x6a then some "OP_RETURN"
  else if b = 0x76 then some "OP_DUP"
  else if b = 0x87 then some "OP_EQUAL"
  else if b = 0x88 then some "OP_EQUALVERIFY"
  else if b = 0xa9 then some "OP_HASH160"
  else if b = 0xac then some "OP_CHECKSIG"
  else if b = 0xad then some "OP_CHECKSIGVERIFY"
  else if b = 0xae then some "OP_CHECKMULTISIG"
  else if b = 0xaf then some "OP_CHECKMULTISIGVERIFY"
  else none

/-- Lower-case hex rendering of a byte list, Python's `bytes.hex()`. -/
def hexStr (bs : List Nat) : String :=
  String.mk (bs.flatMap fun b => [Nat.digitChar (b / 16), Nat.digitChar (b % 16)])

/-- The decoding loop of `decode_script` (lines 158-207) together with its
`try/except` handler: returns the token list built by `append` and a flag
recording whether an exception was caught (truncated PUSHDATA length field
or payload slice, or an opcode value absent from `RAW_OPCODE`).  Tokens
already appended before the failing read are kept, exactly as the source's
`result` list.  Fuel works as in `parseLoopF`: each iteration consumes at
least one byte. -/
def decodeLoopF : Nat → List Nat → Bool → Nat → List String → List String × Bool
  | 0, _, _, _, acc => (acc, false)
  | fuel + 1, script, asm, s, acc =>
    if s < script.length then
      if script.getD s 0 < 0x4c ∧ script.getD s 0 ≠ 0 then
        (if asm then
          decodeLoopF fuel script asm (s + script.getD s 0 + 1)
            (acc ++ ["OP_PUSHBYTES[" ++ toString (script.getD s 0) ++ "]",
                     hexStr ((script.drop (s + 1)).take (script.getD s 0))])
        else
          decodeLoopF fuel script asm (s + script.getD s 0 + 1)
            (acc ++ ["[" ++ toString (script.getD s 0) ++ "]"]))
      else if script.getD s 0 = 0x4c then
        (if asm then
          (if s + 1 < script.length then
            decodeLoopF fuel script asm (s + 2 + script.getD (s + 1) 0)
              (acc ++ ["OP_PUSHDATA1[" ++ toString (script.getD (s + 1) 0) ++ "]",
                       hexStr ((script.drop (s + 2)).take (script.getD (s + 1) 0))])
          else (acc, true))
        else
          match RAW_OPCODE 0x4c with
          | none => (acc, true)
          | some nm =>
            (if s + 1 < script.length then
              decodeLoopF fuel script asm (s + 2 + script.getD (s + 1) 0)
                (acc ++ [nm, "[" ++ toString (script.getD (s + 1) 0) ++ "]"])
            else (acc ++ [nm], true)))
      else if script.getD s 0 = 0x4d then
        (if s + 3 ≤ script.length then
          (if asm then
            decodeLoopF fuel script asm
              (s + 3 + (script.getD (s + 1) 0 + 256 * script.getD (s + 2) 0))
              (acc ++ ["OP_PUSHDATA2[" ++
                         toString (script.getD (s + 1) 0 + 256 * script.getD (s + 2) 0) ++ "]",
                       hexStr ((script.drop (s + 3)).take
                         (script.getD (s + 1) 0 + 256 * script.getD (s + 2) 0))])
          else
            match RAW_OPCODE 0x4d with
            | none => (acc, true)
            | some nm =>
              decodeLoopF fuel script asm
                (s + 3 + (script.getD (s + 1) 0 + 256 * script.getD (s + 2) 0))
                (acc ++ [nm, "[" ++
                  toString (script.getD (s + 1) 0 + 256 * script.getD (s + 2) 0) ++ "]"]))
        else (acc, true))
      else if script.getD s 0 = 0x4e then
        (if s + 5 ≤ script.length then
          (if asm then
            decodeLoopF fuel script asm
              (s + 6 + (script.getD (s + 1) 0 + 256 * script.getD (s + 2) 0 +
                65536 * script.getD (s + 3) 0 + 16777216 * script.getD (s + 4) 0))
              (acc ++ ["OP_PUSHDATA4[" ++
                         toString (script.getD (s + 1) 0 + 256 * script.getD (s + 2) 0 +
                           65536 * script.getD (s + 3) 0 + 16777216 * script.getD (s + 4) 0) ++
                         "]",
                       hexStr ((script.drop (s + 5)).take
                         (script.getD (s + 1) 0 + 256 * script.getD (s + 2) 0 +
                          65536 * script.getD (s + 3) 0 + 16777216 * script.getD (s + 4) 0))])
          else
            match RAW_OPCODE 0x4e with
            | none => (acc, true)
            | some nm =>
              decodeLoopF fuel script asm
                (s + 6 + (script.getD (s + 1) 0 + 256 * script.getD (s + 2) 0 +
                  65536 * script.getD (s + 3) 0 + 16777216 * script.getD (s + 4) 0))
                (acc ++ [nm, "[" ++
                  toString (script.getD (s + 1) 0 + 256 * script.getD (s + 2) 0 +
                    65536 * script.getD (s + 3) 0 + 16777216 * script.getD (s + 4) 0) ++ "]"]))
        else (acc, true))
      else
        match RAW_OPCODE (script.getD s 0) with
        | none => (acc, true)
        | some nm => decodeLoopF fuel script asm (s + 1) (acc ++ [nm])
    else (acc, false)

/-- Embedding of `decode_script(script, asm)` from
`pybtc/functions/script.py` (lines 148-208): the token list (with the
sentinel appended by the `except` handler on failure) joined by single
spaces. -/
def decode_script (script : List Nat) (asm : Bool) : String :=
  String.intercalate " "
    ((decodeLoopF script.length script asm 0 []).1 ++
      (if (decodeLoopF script.length script asm 0 []).2 then ["[SCRIPT_DECODE_FAILED]"] else []))

/-- The inner `while t != s - k: t += stack.pop(0)` of `delete_from_script`
(lines 253-255): pops whole units until exactly `target` bytes have been
discarded; `none` when the stack empties first (`IndexError` in the
source; with `t` overshooting the target, Python would likewise drain the
stack and raise). -/
def popUntilF (target : Nat) : List Nat → Nat → Option (List Nat)
  | stack, t =>
    if t = target then some stack
    else
      match stack with
      | [] => none
      | u :: rest => popUntilF target rest (t + u)

/-- The main loop of `delete_from_script` (lines 233-260).  Each iteration
measures one unit (pushing its byte length on `stack` and advancing `s`),
then runs the window logic.  Unit-length reads that index or unpack past
the buffer raise (there is no `try/except` here), embedded as
`Except.error`.  Note the source's unit sizes: PUSHDATA1 counts
`1 + script[s+1]` bytes (one short of the real unit), and PUSHDATA2/4
unpack the length little-endian from `script[s:s+2]` / `script[s:s+4]`,
i.e. starting at the opcode byte itself.  Returns the final
`(s, k, stack, result)`. -/
def delLoopF : Nat → List Nat → List Nat → Nat → Nat → List Nat → List (List Nat) →
    Except String (Nat × Nat × List Nat × List (List Nat))
  | 0, _, _, s, k, stack, result => Except.ok (s, k, stack, result)
  | fuel + 1, script, sub, s, k, stack, result =>
    if s < script.length then
      (if script.getD s 0 < 0x4c ∧ script.getD s 0 ≠ 0 then
        Except.ok (stack ++ [script.getD s 0 + 1], s + script.getD s 0 + 1)
      else if script.getD s 0 = 0x4c then
        (if s + 1 < script.length then
          Except.ok (stack ++ [1 + script.getD (s + 1) 0], s + 1 + script.getD (s + 1) 0)
        else Except.error "IndexError: script index out of range")
      else if script.getD s 0 = 0x4d then
        (if s + 2 ≤ script.length then
          Except.ok (stack ++ [2 + (script.getD s 0 + 256 * script.getD (s + 1) 0)],
                     s + 2 + (script.getD s 0 + 256 * script.getD (s + 1) 0))
        else Except.error "struct.error: unpack requires a buffer of 2 bytes")
      else if script.getD s 0 = 0x4e then
        (if s + 4 ≤ script.length then
          Except.ok (stack ++ [4 + (script.getD s 0 + 256 * script.getD (s + 1) 0 +
                       65536 * script.getD (s + 2) 0 + 16777216 * script.getD (s + 3) 0)],
                     s + 4 + (script.getD s 0 + 256 * script.getD (s + 1) 0 +
                       65536 * script.getD (s + 2) 0 + 16777216 * script.getD (s + 3) 0))
        else Except.error "struct.error: unpack requires a buffer of 4 bytes")
      else Except.ok (stack ++ [1], s + 1)).bind
      (fun su =>
        if su.2 - k ≥ sub.length then
          if ((script.drop k).take (su.2 - k)).take sub.length = sub then
            match popUntilF (su.2 - k) su.1 0 with
            | none => Except.error "IndexError: pop from empty list"
            | some stackRest =>
              delLoopF fuel script sub su.2 su.2 stackRest
                (if su.2 - k > sub.length then
                  result ++ [(script.drop (k + sub.length)).take (su.2 - k - sub.length)]
                else result)
          else
            match su.1 with
            | [] => Except.error "IndexError: pop from empty list"
            | t :: rest =>
              delLoopF fuel script sub su.2 (k + t) rest
                (result ++ [(script.drop k).take t])
        else delLoopF fuel script sub su.2 k su.1 result)
    else Except.ok (s, k, stack, result)

/-- Embedding of `delete_from_script(script, sub_script)` from
`pybtc/functions/script.py` (lines 211-270), byte-sequence mode: empty
`sub_script` returns the script unchanged; otherwise the walk runs and a
final window comparison decides what is appended last (`script[k+ls:s]` on
a trailing match, `script[k:k+ls]` — only `ls` bytes of the remaining
window — otherwise), and the collected chunks are joined. -/
def delete_from_script (script sub : List Nat) : Except String (List Nat) :=
  if sub = [] then Except.ok script
  else
    match delLoopF script.length script sub 0 0 [] [] with
    | Except.error e => Except.error e
    | Except.ok (s, k, _, result) =>
      if ((script.drop k).take (s - k)).take sub.length = sub then
        (if s - k > sub.length then
          Except.ok (result ++ [(script.drop (k + sub.length)).take (s - k - sub.length)]).flatten
        else Except.ok result.flatten)
      else Except.ok (result ++ [(script.drop k).take sub.length]).flatten

/-- Every `continue` iteration of the generic walk strictly advances the
cursor, so fuel `script.length` bounds the loop. -/
theorem walkStep_s_lt (script : List Nat) (st st2 : WalkSt)
    (h : walkStep script st = StepRes.cont st2) : st.s < st2.s := by
  unfold walkStep at h
  repeat' split at h
  all_goals try injection h
  all_goals rename_i steq
  all_goals subst steq
  all_goals simp [walkFinish]
  all_goals try omega

/-- Unfolding equation of `countUnits` on a non-empty list. -/
theorem countUnits_cons (b : Nat) (rest : List Nat) :
    countUnits (b :: rest) =
      if b < 0x4c then (countUnits (rest.drop b)).map (fun k => k + 1) else none := by
  simp only [countUnits]

/-- The in-place interior scan of the multisig recognizer computes the
greedy raw-push unit count of the interior byte list: `msScanF` from cursor
`s` equals `c` plus the unit count when the scan succeeds, and `0` when a
unit starts with a byte `>= 0x4c`. -/
theorem msScanF_eq_countUnits (script : List Nat) :
    ∀ (fuel s c : Nat), script.length - 2 - s ≤ fuel →
      msScanF fuel script s c =
        (match countUnits ((script.drop s).take (script.length - 2 - s)) with
         | some k => c + k
         | none => 0) := by
  intro fuel
  induction fuel with
  | zero =>
    intro s c hf
    have h0 : script.length - 2 - s = 0 := Nat.le_zero.mp hf
    rw [h0]
    simp [msScanF, countUnits]
  | succ fuel ih =>
    intro s c hf
    by_cases hs : s + 2 < script.length
    · have hlt : s < script.length := by omega
      have hcons : (script.drop s).take (script.length - 2 - s) =
          script.getD s 0 :: (script.drop (s + 1)).take (script.length - 2 - (s + 1)) := by
        rw [List.drop_eq_getElem_cons hlt]
        have h2 : script.length - 2 - s = (script.length - 2 - (s + 1)) + 1 := by omega
        rw [h2, List.take_succ_cons]
        congr 1
        rw [List.getD_eq_getElem?_getD, List.getElem?_eq_getElem hlt]
        rfl
      rw [hcons, countUnits_cons]
      by_cases hb : script.getD s 0 < 0x4c
      · rw [if_pos hb]
        have hshift :
            ((script.drop (s + 1)).take (script.length - 2 - (s + 1))).drop (script.getD s 0) =
            (script.drop (s + script.getD s 0 + 1)).take
              (script.length - 2 - (s + script.getD s 0 + 1)) := by
          rw [List.drop_take, List.drop_drop]
          congr 1
          · omega
          · congr 1
            omega
        rw [hshift]
        have hstep : msScanF (fuel + 1) script s c =
            msScanF fuel script (s + script.getD s 0 + 1) (c + 1) := by
          simp only [msScanF]
          rw [if_pos hs, if_pos hb]
        rw [hstep, ih (s + script.getD s 0 + 1) (c + 1) (by omega)]
        cases hcu : countUnits ((script.drop (s + script.getD s 0 + 1)).take
            (script.length - 2 - (s + script.getD s 0 + 1))) with
        | none => rfl
        | some k =>
          simp only [Option.map_some']
          ring
      · rw [if_neg hb]
        have hstep : msScanF (fuel + 1) script s c = 0 := by
          simp only [msScanF]
          rw [if_pos hs, if_neg hb]
        rw [hstep]
    · have h0 : script.length - 2 - s = 0 := by omega
      rw [h0]
      simp [msScanF, hs, countUnits]

/-- Any fuel at least the number of remaining bytes gives the same walk
result: the generic walk reaches its exit within `script.length` steps. -/
theorem parseLoopF_fuel_irrelevant (script : List Nat) :
    ∀ (fuel1 fuel2 : Nat) (st : WalkSt),
      script.length - st.s ≤ fuel1 → script.length - st.s ≤ fuel2 →
      parseLoopF fuel1 script st = parseLoopF fuel2 script st := by
  intro fuel1
  induction fuel1 with
  | zero =>
    intro fuel2 st h1 h2
    have hs : ¬ st.s < script.length := by omega
    cases fuel2 with
    | zero => rfl
    | succ f2 => simp [parseLoopF, hs]
  | succ fuel ih =>
    intro fuel2 st h1 h2
    by_cases hs : st.s < script.length
    · cases fuel2 with
      | zero => omega
      | succ f2 =>
        simp only [parseLoopF, if_pos hs]
        cases hw : walkStep script st with
        | brk r => rfl
        | cont st2 =>
          have hlt := walkStep_s_lt script st st2 hw
          exact ih f2 st2 (by omega) (by omega)
    · cases fuel2 with
      | zero => simp [parseLoopF, hs]
      | succ f2 => simp [parseLoopF, hs]

/-- `parse_script` never raises: the one `IndexError` site (`script[-2]` in
the multisig template test) is unreachable, because it is guarded by the
first byte being a small-integer opcode and the last byte being 174, which
no one-byte script satisfies. -/
theorem parse_script_no_error (h160 : List Nat → List Nat) (script : List Nat)
    (segwit : Bool) (e : String) : parse_script h160 script segwit ≠ Except.error e := by
  intro h
  unfold parse_script at h
  repeat' split at h
  all_goals try injection h
  all_goals rename_i hms
  all_goals obtain ⟨ha, hb, hc⟩ := hms
  all_goals unfold multisig_or_generic at h
  all_goals repeat' split at h
  all_goals try injection h
  all_goals rename_i hlt heq
  all_goals
    (have hcase : script.length = 0 ∨ script.length = 1 := by omega
     cases hcase with
     | inl h0 =>
       have hnil : script = [] := List.length_eq_zero.mp h0
       rw [hnil] at ha
       simp at ha
     | inr h1 =>
       rw [h1] at hc
       simp only [Nat.sub_self] at hc
       omega)

/-- `parse_script` always returns a classification. -/
theorem parse_script_total (h160 : List Nat → List Nat) (script : List Nat) (segwit : Bool) :
    ∃ r, parse_script h160 script segwit = Except.ok r := by
  cases hp : parse_script h160 script segwit with
  | error e => exact absurd hp (parse_script_no_error h160 script segwit e)
  | ok r => exact ⟨r, rfl⟩

/-- The first two bytes of a list, from its length-2 `take`. -/
theorem take_two_head (script : List Nat) (a b : Nat)
    (h : script.take 2 = [a, b]) : script.getD 0 0 = a ∧ script.getD 1 0 = b := by
  cases script with
  | nil => simp at h
  | cons x t =>
    cases t with
    | nil => simp at h
    | cons y u =>
      simp at h
      simp [h.1, h.2]

/-- A script satisfying the structural multisig condition is classified
`MULTISIG` by `parse_script`: none of the earlier templates can fire, the
guard bytes match, and the interior scan returns exactly `n`. -/
theorem multisig_cond_parse (h160 : List Nat → List Nat) (script : List Nat)
    (segwit : Bool) (hc : MultisigCond script) :
    parse_script h160 script segwit = Except.ok (multisig_result script) := by
  obtain ⟨hne, h81, h96, h174, hn81, hn96, hmn, hcount⟩ := hc
  have hlen1 : script.length ≠ 0 := fun h => hne (List.length_eq_zero.mp h)
  have hlen2 : 2 ≤ script.length := by
    by_contra hlt
    have h1 : script.length = 1 := by omega
    rw [h1] at h174
    simp only [Nat.sub_self] at h174
    omega
  have hscan : msScanF script.length script 1 0 = script.getD (script.length - 2) 0 - 80 := by
    rw [msScanF_eq_countUnits script script.length 1 0 (by omega)]
    have h3 : script.length - 2 - 1 = script.length - 3 := by omega
    rw [h3, hcount]
    exact Nat.zero_add _
  unfold parse_script
  rw [if_neg hne]
  rw [if_neg (fun hw => by omega : ¬(segwit = true ∧ script.length = 22 ∧ script.getD 0 0 = 0))]
  rw [if_neg (fun hw => by omega : ¬(segwit = true ∧ script.length = 34 ∧ script.getD 0 0 = 0))]
  rw [if_neg (fun hw => by
        have := take_two_head script 0x76 0xa9 hw.2.1
        omega :
      ¬(script.length = 25 ∧ script.take 2 = [0x76, 0xa9] ∧
        script.drop (script.length - 2) = [0x88, 0xac]))]
  rw [if_neg (fun hw => by omega :
      ¬(script.length = 23 ∧ script.getD 0 0 = 169 ∧ script.getD (script.length - 1) 0 = 135))]
  rw [if_neg (fun hw => by omega :
      ¬(script.length = 67 ∧ script.getD (script.length - 1) 0 = 172))]
  rw [if_neg (fun hw => by omega :
      ¬(script.length = 35 ∧ script.getD (script.length - 1) 0 = 172))]
  rw [if_neg (by omega : ¬(script.getD 0 0 = 106))]
  rw [if_pos ⟨h81, h96, h174⟩]
  unfold multisig_or_generic
  rw [if_neg (by omega : ¬(script.length < 2))]
  rw [if_pos ⟨⟨hn81, hn96⟩, hmn⟩]
  rw [if_pos hscan]

/-- The `OP_RETURN` block only produces the two NULL_DATA classifications. -/
theorem op_return_branch_type (script : List Nat) :
    (op_return_branch script).type = "NULL_DATA" ∨
    (op_return_branch script).type = "NULL_DATA_NON_STANDARD" := by
  unfold op_return_branch
  repeat' split
  all_goals first | exact Or.inl rfl | exact Or.inr rfl

/-- The multisig template block only yields `MULTISIG` or the generic
`NON_STANDARD` tally. -/
theorem multisig_or_generic_type (script : List Nat) (r : ParseResult)
    (h : multisig_or_generic script = Except.ok r) :
    r.type = "MULTISIG" ∨ r.type = "NON_STANDARD" := by
  unfold multisig_or_generic at h
  repeat' split at h
  all_goals try cases h
  all_goals first | exact Or.inl rfl | exact Or.inr rfl

theorem parseLoopF_done (fuel : Nat) (script : List Nat) (st : WalkSt)
    (h : ¬ st.s < script.length) : parseLoopF fuel script st = st.reqSigs := by
  cases fuel <;> simp [parseLoopF, h]

theorem walkStep_raw_eq (script : List Nat) (st : WalkSt)
    (hb : script.getD st.s 0 < 0x4c) :
    walkStep script st = StepRes.cont
      { s := st.s + script.getD st.s 0 + 1,
        m := if st.m + 1 > 16 then 0 else st.m + 1,
        n := if st.m + 1 > 16 then 0 else st.n,
        last := st.last - 1, reqSigs := st.reqSigs } := by
  unfold walkStep
  rw [if_neg (by omega : ¬(81 ≤ script.getD st.s 0 ∧ script.getD st.s 0 ≤ 96))]
  rw [if_pos hb]
  by_cases hm : st.m + 1 > 16
  · simp only [if_pos hm]
    rfl
  · simp only [if_neg hm]
    rfl

theorem walkStep_pd1_eq (script : List Nat) (st : WalkSt)
    (hb : script.getD st.s 0 = 0x4c) (hl : st.s + 1 < script.length) :
    walkStep script st = StepRes.cont
      { s := st.s + 2 + script.getD (st.s + 1) 0, m := st.m, n := st.n,
        last := st.last - 1, reqSigs := st.reqSigs } := by
  unfold walkStep
  rw [if_neg (by omega : ¬(81 ≤ script.getD st.s 0 ∧ script.getD st.s 0 ≤ 96))]
  rw [if_neg (by omega : ¬(script.getD st.s 0 < 0x4c))]
  rw [if_pos hb, if_pos hl]
  have : st.s + 1 + script.getD (st.s + 1) 0 + 1 = st.s + 2 + script.getD (st.s + 1) 0 := by
    omega
  simp only [walkFinish]
  rw [this]

theorem walkStep_pd1_brk (script : List Nat) (st : WalkSt)
    (hb : script.getD st.s 0 = 0x4c) (hl : ¬ st.s + 1 < script.length) :
    walkStep script st = StepRes.brk st.reqSigs := by
  unfold walkStep
  rw [if_neg (by omega : ¬(81 ≤ script.getD st.s 0 ∧ script.getD st.s 0 ≤ 96))]
  rw [if_neg (by omega : ¬(script.getD st.s 0 < 0x4c))]
  rw [if_pos hb, if_neg hl]

theorem walkStep_pd2_eq (script : List Nat) (st : WalkSt)
    (hb : script.getD st.s 0 = 0x4d) (hl : st.s + 3 ≤ script.length) :
    walkStep script st = StepRes.cont
      { s := st.s + 3 + (script.getD (st.s + 1) 0 + 256 * script.getD (st.s + 2) 0),
        m := st.m, n := st.n, last := st.last - 1, reqSigs := st.reqSigs } := by
  unfold walkStep
  rw [if_neg (by omega : ¬(81 ≤ script.getD st.s 0 ∧ script.getD st.s 0 ≤ 96))]
  rw [if_neg (by omega : ¬(script.getD st.s 0 < 0x4c))]
  rw [if_neg (by omega : ¬(script.getD st.s 0 = 0x4c))]
  rw [if_pos hb, if_pos hl]
  have : st.s + 2 + (script.getD (st.s + 1) 0 + 256 * script.getD (st.s + 2) 0) + 1 =
      st.s + 3 + (script.getD (st.s + 1) 0 + 256 * script.getD (st.s + 2) 0) := by omega
  simp only [walkFinish]
  rw [this]

theorem walkStep_pd2_brk (script : List Nat) (st : WalkSt)
    (hb : script.getD st.s 0 = 0x4d) (hl : ¬ st.s + 3 ≤ script.length) :
    walkStep script st = StepRes.brk st.reqSigs := by
  unfold walkStep
  rw [if_neg (by omega : ¬(81 ≤ script.getD st.s 0 ∧ script.getD st.s 0 ≤ 96))]
  rw [if_neg (by omega : ¬(script.getD st.s 0 < 0x4c))]
  rw [if_neg (by omega : ¬(script.getD st.s 0 = 0x4c))]
  rw [if_pos hb, if_neg hl]

theorem walkStep_pd4_eq (script : List Nat) (st : WalkSt)
    (hb : script.getD st.s 0 = 0x4e) (hl : st.s + 5 ≤ script.length) :
    walkStep script st = StepRes.cont
      { s := st.s + 5 + (script.getD (st.s + 1) 0 + 256 * script.getD (st.s + 2) 0 +
          65536 * script.getD (st.s + 3) 0 + 16777216 * script.getD (st.s + 4) 0),
        m := st.m, n := st.n, last := st.last - 1, reqSigs := st.reqSigs } := by
  unfold walkStep
  rw [if_neg (by omega : ¬(81 ≤ script.getD st.s 0 ∧ script.getD st.s 0 ≤ 96))]
  rw [if_neg (by omega : ¬(script.getD st.s 0 < 0x4c))]
  rw [if_neg (by omega : ¬(script.getD st.s 0 = 0x4c))]
  rw [if_neg (by omega : ¬(script.getD st.s 0 = 0x4d))]
  rw [if_pos hb, if_pos hl]
  have : st.s + 4 + (script.getD (st.s + 1) 0 + 256 * script.getD (st.s + 2) 0 +
      65536 * script.getD (st.s + 3) 0 + 16777216 * script.getD (st.s + 4) 0) + 1 =
      st.s + 5 + (script.getD (st.s + 1) 0 + 256 * script.getD (st.s + 2) 0 +
      65536 * script.getD (st.s + 3) 0 + 16777216 * script.getD (st.s + 4) 0) := by omega
  simp only [walkFinish]
  rw [this]

theorem walkStep_pd4_brk (script : List Nat) (st : WalkSt)
    (hb : script.getD st.s 0 = 0x4e) (hl : ¬ st.s + 5 ≤ script.length) :
    walkStep script st = StepRes.brk st.reqSigs := by
  unfold walkStep
  rw [if_neg (by omega : ¬(81 ≤ script.getD st.s 0 ∧ script.getD st.s 0 ≤ 96))]
  rw [if_neg (by omega : ¬(script.getD st.s 0 < 0x4c))]
  rw [if_neg (by omega : ¬(script.getD st.s 0 = 0x4c))]
  rw [if_neg (by omega : ¬(script.getD st.s 0 = 0x4d))]
  rw [if_pos hb, if_neg hl]

theorem parseLoopF_overrun (script : List Nat) (st : WalkSt) (fuel : Nat)
    (hs : st.s < script.length) (hov : OverrunPush script st) :
    parseLoopF (fuel + 1) script st = st.reqSigs := by
  simp only [parseLoopF, if_pos hs]
  rcases hov with ⟨hb, hl⟩ | ⟨hb, hl | hl⟩ | ⟨hb, hl | hl⟩ | ⟨hb, hl | hl⟩
  · rw [walkStep_raw_eq script st hb]
    exact parseLoopF_done fuel script _ (by
      show ¬ st.s + script.getD st.s 0 + 1 < script.length
      omega)
  · rw [walkStep_pd1_brk script st hb (by omega)]
  · by_cases hf : st.s + 1 < script.length
    · rw [walkStep_pd1_eq script st hb hf]
      exact parseLoopF_done fuel script _ (by
        show ¬ st.s + 2 + script.getD (st.s + 1) 0 < script.length
        omega)
    · rw [walkStep_pd1_brk script st hb hf]
  · rw [walkStep_pd2_brk script st hb (by omega)]
  · by_cases hf : st.s + 3 ≤ script.length
    · rw [walkStep_pd2_eq script st hb hf]
      exact parseLoopF_done fuel script _ (by
        show ¬ st.s + 3 + (script.getD (st.s + 1) 0 + 256 * script.getD (st.s + 2) 0) <
          script.length
        omega)
    · rw [walkStep_pd2_brk script st hb hf]
  · rw [walkStep_pd4_brk script st hb (by omega)]
  · by_cases hf : st.s + 5 ≤ script.length
    · rw [walkStep_pd4_eq script st hb hf]
      exact parseLoopF_done fuel script _ (by
        show ¬ st.s + 5 + (script.getD (st.s + 1) 0 + 256 * script.getD (st.s + 2) 0 +
          65536 * script.getD (st.s + 3) 0 + 16777216 * script.getD (st.s + 4) 0) <
          script.length
        omega)
    · rw [walkStep_pd4_brk script st hb hf]

/-- Pushing `Option.isSome` through a guard of the decoder. -/
theorem isSome_ite_none {c : Prop} [Decidable c] {α : Type} (t : Option α) :
    (if c then none else t).isSome = (if c then false else t.isSome) := by
  split <;> rfl

/-- C9: `parse_signature` succeeds exactly on the byte sequences
`is_valid_signature_encoding` accepts and raises exactly on those it
rejects — the decoder and validator run the identical check sequence. -/
theorem parse_signature_isSome_iff (sig : List Nat) :
    (parse_signature sig).isSome = is_valid_signature_encoding sig := by
  simp only [parse_signature, is_valid_signature_encoding, isSome_ite_none, Option.isSome_some]

/-- C1: for the well-formed signature `c1sig` accepted by the validator,
`parse_signature` returns `r = []` (the slice `sig[5:4+len_r]` drops the
first byte of the R element, here all of it) and `s = [0x01]`, and
re-encoding that pair with the envelope's length-prefix rules plus the
original sighash byte does not reproduce the original signature.  The
round-trip claimed by the spec fails on the code. -/
theorem parse_signature_roundtrip_fails :
    is_valid_signature_encoding c1sig = true ∧
    parse_signature c1sig = some ([], [0x01]) ∧
    reencode_signature [] [0x01] 0x01 ≠ c1sig := by
  refine ⟨by decide, by decide, by decide⟩

set_option maxRecDepth 8192 in
/-- C3: `op_push_data` on a 256-byte payload emits the PUSHDATA2 header
`4d 00 01`, but decoding one unit from the result with `read_opcode`
raises instead of returning the payload: the PUSHDATA2/4 branches of
`read_opcode` apply `unpack` to `read(2)[0]`, an integer, not to the
2-byte buffer, so the claimed round-trip fails for every payload longer
than 255 bytes. -/
theorem read_opcode_pushdata2_raises :
    op_push_data c3payload = [0x4d, 0x00, 0x01] ++ c3payload ∧
    read_opcode (op_push_data c3payload) 0 =
      Except.error "unpack of read(2)[0]: not a 2-byte buffer" := by
  exact ⟨rfl, rfl⟩

/-- C4 counterexample: `OP_2 OP_0 OP_0 OP_0 OP_3 OP_CHECKMULTISIG` is
classified MULTISIG with `reqSigs = 2`, `pubKeys = 3`, although each of its
three interior push units is zero-length (the interior bytes are
`00 00 00`): the recognizer counts `script[s] < 0x4c` pushes including
zero. -/
theorem multisig_zero_length_push_classified :
    parse_script (fun _ => []) [82, 0, 0, 0, 83, 174] true =
      Except.ok { nType := 4, type := "MULTISIG", reqSigs := some 2,
                  script := some [82, 0, 0, 0, 83, 174], pubKeys := some 3 } ∧
    (([82, 0, 0, 0, 83, 174] : List Nat).drop 1).take 3 = [0, 0, 0] :=
  ⟨rfl, rfl⟩

/-- C4 (amended): `parse_script` classifies a script as MULTISIG exactly
under `MultisigCond`: small-integer first byte `m`, last byte
OP_CHECKMULTISIG, small-integer second-to-last byte `n >= m`, and a greedy
left-to-right walk of the interior counting raw-push units (zero-length
units allowed, the final unit may overrun the interior) counts exactly `n`
units; in that case `reqSigs = m = script[0] - 80` and `pubKeys = n`. -/
theorem parse_script_multisig_characterization
    (h160 : List Nat → List Nat) (segwit : Bool) (script : List Nat) (r : ParseResult)
    (hok : parse_script h160 script segwit = Except.ok r) :
    (r.type = "MULTISIG" ↔ MultisigCond script) ∧
    (MultisigCond script → r = multisig_result script) := by
  constructor
  · constructor
    · intro hty
      unfold parse_script at hok
      repeat' split at hok
      all_goals try cases hok
      all_goals try (simp [empty_script_result, p2wpkh_result, p2wsh_result, p2pkh_result,
        p2sh_result, pubkey_result, generic_walk_result] at hty)
      all_goals try (rcases op_return_branch_type script with hor | hor <;>
        (rw [hor] at hty; simp at hty))
      rename_i hguard
      obtain ⟨h81, h96, h174⟩ := hguard
      unfold multisig_or_generic at hok
      repeat' split at hok
      all_goals try cases hok
      all_goals try (simp [generic_walk_result] at hty)
      rename_i hlt hinner hscan
      obtain ⟨⟨hn81, hn96⟩, hmn⟩ := hinner
      have hne : script ≠ [] := by
        intro hnil
        rw [hnil] at h81
        simp at h81
      have hcount : countUnits ((script.drop 1).take (script.length - 3)) =
          some (script.getD (script.length - 2) 0 - 80) := by
        have hb := msScanF_eq_countUnits script script.length 1 0 (by omega)
        have h3 : script.length - 2 - 1 = script.length - 3 := by omega
        rw [h3] at hb
        rw [hscan] at hb
        cases hcu : countUnits ((script.drop 1).take (script.length - 3)) with
        | none =>
          rw [hcu] at hb
          change script.getD (script.length - 2) 0 - 80 = 0 at hb
          exfalso
          omega
        | some k =>
          rw [hcu] at hb
          have hk : script.getD (script.length - 2) 0 - 80 = k := by
            change script.getD (script.length - 2) 0 - 80 = 0 + k at hb
            omega
          rw [hk]
      exact ⟨hne, h81, h96, h174, hn81, hn96, hmn, hcount⟩
    · intro hcond
      rw [multisig_cond_parse h160 script segwit hcond] at hok
      injection hok with hh
      rw [← hh]
      rfl
  · intro hcond
    rw [multisig_cond_parse h160 script segwit hcond] at hok
    injection hok with hh
    exact hh.symm

/-- Witness for C4 at the 2-of-3 example: the hypothesis of the
characterization holds by evaluation and the conclusion follows. -/
theorem parse_script_multisig_witness :
    parse_script (fun _ => []) c4example true = Except.ok (multisig_result c4example) ∧
    ((((multisig_result c4example).type = "MULTISIG") ↔ MultisigCond c4example) ∧
     (MultisigCond c4example → multisig_result c4example = multisig_result c4example)) :=
  ⟨rfl, parse_script_multisig_characterization (fun _ => []) true c4example
    (multisig_result c4example) rfl⟩

/-- C7 counterexample: on the empty script `parse_script` returns the
`NON_STANDARD` dictionary (`nType` 7), not a distinct `EMPTY`
classification; only the zero required-signature count matches the claim. -/
theorem parse_script_empty_counterexample :
    parse_script (fun _ => []) [] true = Except.ok empty_script_result ∧
    empty_script_result.type = "NON_STANDARD" ∧
    empty_script_result.type ≠ "EMPTY" ∧
    empty_script_result.reqSigs = some 0 :=
  ⟨rfl, rfl, by decide, rfl⟩

/-- C7 (amended): on empty input `parse_script` returns the `NON_STANDARD`
classification (`nType` 7) with zero required signatures and an empty
script echo, for every digest parameter and segwit flag. -/
theorem parse_script_empty (h160 : List Nat → List Nat) (segwit : Bool) :
    parse_script h160 [] segwit = Except.ok
      { nType := 7, type := "NON_STANDARD", reqSigs := some 0, script := some [] } :=
  rfl

/-- C6 counterexample: stepping the generic walk over the complete
PUSHDATA1 unit `4c 01 aa` leaves the running push count `m` at 0 instead
of incrementing it to 1. -/
theorem walkStep_pushdata1_no_increment :
    walkStep [0x4c, 0x01, 0xaa] { s := 0, m := 0, n := 0, last := 0, reqSigs := 0 } =
      StepRes.cont { s := 3, m := 0, n := 0, last := 0, reqSigs := 0 } ∧
    ({ s := 3, m := 0, n := 0, last := 0, reqSigs := 0 } : WalkSt).m ≠
      ({ s := 0, m := 0, n := 0, last := 0, reqSigs := 0 } : WalkSt).m + 1 :=
  ⟨rfl, by decide⟩

/-- C6 (amended): in the generic fallback walk, a raw push (byte `< 0x4c`)
is skipped as data and increments the running push count `m`, resetting
the pair `(n, m)` to `(0, 0)` when the new count exceeds 16; PUSHDATA1/2/4
units with complete length fields are skipped as data without touching
`m` or `n`.  (The per-iteration `last` countdown applies in all cases.) -/
theorem walkStep_push_units (script : List Nat) (st : WalkSt)
    (hs : st.s < script.length) :
    (script.getD st.s 0 < 0x4c →
      walkStep script st = StepRes.cont
        { s := st.s + script.getD st.s 0 + 1,
          m := if st.m + 1 > 16 then 0 else st.m + 1,
          n := if st.m + 1 > 16 then 0 else st.n,
          last := st.last - 1, reqSigs := st.reqSigs }) ∧
    (script.getD st.s 0 = 0x4c → st.s + 1 < script.length →
      walkStep script st = StepRes.cont
        { s := st.s + 2 + script.getD (st.s + 1) 0, m := st.m, n := st.n,
          last := st.last - 1, reqSigs := st.reqSigs }) ∧
    (script.getD st.s 0 = 0x4d → st.s + 3 ≤ script.length →
      walkStep script st = StepRes.cont
        { s := st.s + 3 + (script.getD (st.s + 1) 0 + 256 * script.getD (st.s + 2) 0),
          m := st.m, n := st.n, last := st.last - 1, reqSigs := st.reqSigs }) ∧
    (script.getD st.s 0 = 0x4e → st.s + 5 ≤ script.length →
      walkStep script st = StepRes.cont
        { s := st.s + 5 + (script.getD (st.s + 1) 0 + 256 * script.getD (st.s + 2) 0 +
            65536 * script.getD (st.s + 3) 0 + 16777216 * script.getD (st.s + 4) 0),
          m := st.m, n := st.n, last := st.last - 1, reqSigs := st.reqSigs }) :=
  ⟨fun hb => walkStep_raw_eq script st hb,
   fun hb hl => walkStep_pd1_eq script st hb hl,
   fun hb hl => walkStep_pd2_eq script st hb hl,
   fun hb hl => walkStep_pd4_eq script st hb hl⟩

/-- Witness for C6: a raw push and a PUSHDATA1 unit stepped at concrete
states. -/
theorem walkStep_push_units_witness :
    ((0 : Nat) < 3 ∧ ([2, 170, 187] : List Nat).getD 0 0 < 0x4c ∧
      walkStep [2, 170, 187] { s := 0, m := 4, n := 3, last := 2, reqSigs := 5 } =
        StepRes.cont { s := 3, m := 5, n := 3, last := 1, reqSigs := 5 }) ∧
    ((0 : Nat) < 3 ∧ ([0x4c, 0x01, 0xaa] : List Nat).getD 0 0 = 0x4c ∧ 0 + 1 < 3 ∧
      walkStep [0x4c, 0x01, 0xaa] { s := 0, m := 4, n := 3, last := 2, reqSigs := 5 } =
        StepRes.cont { s := 3, m := 4, n := 3, last := 1, reqSigs := 5 }) :=
  ⟨⟨by decide, by decide,
    (walkStep_push_units [2, 170, 187] ⟨0, 4, 3, 2, 5⟩ (by decide)).1 (by decide)⟩,
   ⟨by decide, by decide, by decide,
    (walkStep_push_units [0x4c, 0x01, 0xaa] ⟨0, 4, 3, 2, 5⟩ (by decide)).2.1
      (by decide) (by decide)⟩⟩

/-- C10: `parse_script` terminates with a classification on every byte
sequence (the `IndexError` site is unreachable); the generic walk's result
is independent of the fuel once it covers the remaining bytes (the loop
exits within `script.length` iterations); and a push unit whose declared
length runs past the buffer end — including a PUSHDATA unit with a
truncated length field — ends the walk immediately with the accumulated
`req_sigs` tally. -/
theorem parse_script_graceful_on_malformed :
    (∀ (h160 : List Nat → List Nat) (script : List Nat) (segwit : Bool),
       ∃ r, parse_script h160 script segwit = Except.ok r) ∧
    (∀ (script : List Nat) (fuel1 fuel2 : Nat) (st : WalkSt),
       script.length - st.s ≤ fuel1 → script.length - st.s ≤ fuel2 →
       parseLoopF fuel1 script st = parseLoopF fuel2 script st) ∧
    (∀ (script : List Nat) (st : WalkSt) (fuel : Nat),
       st.s < script.length → OverrunPush script st →
       parseLoopF (fuel + 1) script st = st.reqSigs) :=
  ⟨parse_script_total,
   fun script => parseLoopF_fuel_irrelevant script,
   fun script st fuel hs hov => parseLoopF_overrun script st fuel hs hov⟩

/-- Witness for C10: a truncated PUSHDATA1 after an OP_CHECKSIG returns
the tally 1 accumulated before the malformed push. -/
theorem parse_script_graceful_witness :
    (∃ r, parse_script (fun _ => []) [0x4c] true = Except.ok r) ∧
    parseLoopF 5 [0xac, 0x4c] { s := 0, m := 0, n := 0, last := 0, reqSigs := 0 } =
      parseLoopF 2 [0xac, 0x4c] { s := 0, m := 0, n := 0, last := 0, reqSigs := 0 } ∧
    parseLoopF 1 [0xac, 0x4c] { s := 1, m := 0, n := 0, last := 0, reqSigs := 1 } = 1 :=
  ⟨parse_script_graceful_on_malformed.1 (fun _ => []) [0x4c] true,
   parse_script_graceful_on_malformed.2.1 [0xac, 0x4c] 5 2 ⟨0, 0, 0, 0, 0⟩
     (by decide) (by decide),
   parse_script_graceful_on_malformed.2.2 [0xac, 0x4c] ⟨1, 0, 0, 0, 1⟩ 0
     (by decide) (by decide)⟩

/-- A script matching the (partial) P2PKH byte pattern is classified P2PKH:
the witness-template guards cannot fire at length 25. -/
theorem p2pkh_cond_parse (h160 : List Nat → List Nat) (script : List Nat) (segwit : Bool)
    (hc : script.length = 25 ∧ script.take 2 = [0x76, 0xa9] ∧
          script.drop (script.length - 2) = [0x88, 0xac]) :
    parse_script h160 script segwit = Except.ok (p2pkh_result script) := by
  obtain ⟨hl, ht, hd⟩ := hc
  have hne : script ≠ [] := by
    intro hnil
    rw [hnil] at hl
    simp at hl
  unfold parse_script
  rw [if_neg hne]
  rw [if_neg (fun hw => by omega : ¬(segwit = true ∧ script.length = 22 ∧ script.getD 0 0 = 0))]
  rw [if_neg (fun hw => by omega : ¬(segwit = true ∧ script.length = 34 ∧ script.getD 0 0 = 0))]
  rw [if_pos ⟨hl, ht, hd⟩]

/-- C8 (amended): `parse_script` classifies a script as P2PKH exactly when
it is 25 bytes long, begins `76 a9` and ends `88 ac`; the third byte (the
nominal push-20 opcode 0x14) is not examined.  In that case the result is
the P2PKH dictionary with `reqSigs = 1` and `addressHash = script[3:23]`. -/
theorem parse_script_p2pkh_characterization
    (h160 : List Nat → List Nat) (segwit : Bool) (script : List Nat) (r : ParseResult)
    (hok : parse_script h160 script segwit = Except.ok r) :
    (r.type = "P2PKH" ↔
      (script.length = 25 ∧ script.take 2 = [0x76, 0xa9] ∧
       script.drop (script.length - 2) = [0x88, 0xac])) ∧
    ((script.length = 25 ∧ script.take 2 = [0x76, 0xa9] ∧
      script.drop (script.length - 2) = [0x88, 0xac]) → r = p2pkh_result script) := by
  constructor
  · constructor
    · intro hty
      unfold parse_script at hok
      repeat' split at hok
      all_goals try cases hok
      all_goals try (simp [empty_script_result, p2wpkh_result, p2wsh_result,
        p2sh_result, pubkey_result, generic_walk_result] at hty)
      all_goals try (rcases op_return_branch_type script with hor | hor <;>
        (rw [hor] at hty; simp at hty))
      all_goals try (rcases multisig_or_generic_type script r hok with hor | hor <;>
        (rw [hty] at hor; simp at hor))
      rename_i hguard
      exact hguard
    · intro hcond
      rw [p2pkh_cond_parse h160 script segwit hcond] at hok
      injection hok with hh
      rw [← hh]
      rfl
  · intro hcond
    rw [p2pkh_cond_parse h160 script segwit hcond] at hok
    injection hok with hh
    exact hh.symm

/-- C8 counterexample: a 25-byte script with prefix `76 a9`, suffix
`88 ac`, but third byte 0x15 (not the push-20 opcode 0x14) is still
classified P2PKH, with the 20 bytes at positions 3..22 as the address
hash: only the first two and last two bytes are examined. -/
theorem p2pkh_without_push_opcode_classified :
    parse_script (fun _ => [])
      ([0x76, 0xa9, 0x15] ++ List.replicate 20 0xbb ++ [0x88, 0xac]) true =
      Except.ok { nType := 0, type := "P2PKH", reqSigs := some 1,
                  addressHash := some (List.replicate 20 0xbb) } ∧
    ([0x76, 0xa9, 0x15] ++ List.replicate 20 0xbb ++ [0x88, 0xac] : List Nat).getD 2 0 ≠
      0x14 :=
  ⟨rfl, by decide⟩

/-- Witness for C8 at the canonical P2PKH script with push opcode 0x14. -/
theorem parse_script_p2pkh_witness :
    parse_script (fun _ => []) c8canonical true = Except.ok (p2pkh_result c8canonical) ∧
    ((((p2pkh_result c8canonical).type = "P2PKH") ↔
       (c8canonical.length = 25 ∧ c8canonical.take 2 = [0x76, 0xa9] ∧
        c8canonical.drop (c8canonical.length - 2) = [0x88, 0xac])) ∧
     ((c8canonical.length = 25 ∧ c8canonical.take 2 = [0x76, 0xa9] ∧
       c8canonical.drop (c8canonical.length - 2) = [0x88, 0xac]) →
       p2pkh_result c8canonical = p2pkh_result c8canonical)) :=
  ⟨rfl, parse_script_p2pkh_characterization (fun _ => []) true c8canonical
    (p2pkh_result c8canonical) rfl⟩

/-- C2 counterexample: decoding `ac 4c` (OP_CHECKSIG followed by a
PUSHDATA1 opcode whose length byte is missing) yields the partially
decoded tokens followed by the sentinel, not the sentinel alone. -/
theorem decode_script_partial_tokens :
    decode_script [0xac, 0x4c] false = "OP_CHECKSIG OP_PUSHDATA1 [SCRIPT_DECODE_FAILED]" ∧
    decode_script [0xac, 0x4c] false ≠ "[SCRIPT_DECODE_FAILED]" :=
  ⟨rfl, by decide⟩

/-- C2 (amended): on a decode failure `decode_script` appends the single
sentinel token after the tokens already decoded, so the result is the
partial token list followed by the sentinel (the sentinel alone only when
the first unit already fails); on success no sentinel appears. -/
theorem decode_script_sentinel_shape :
    (∀ (script : List Nat) (asm : Bool),
       (decodeLoopF script.length script asm 0 []).2 = true →
       decode_script script asm =
         String.intercalate " "
           ((decodeLoopF script.length script asm 0 []).1 ++ ["[SCRIPT_DECODE_FAILED]"])) ∧
    (∀ (script : List Nat) (asm : Bool),
       (decodeLoopF script.length script asm 0 []).2 = false →
       decode_script script asm =
         String.intercalate " " (decodeLoopF script.length script asm 0 []).1) ∧
    decode_script [0xac, 0x4c] false = "OP_CHECKSIG OP_PUSHDATA1 [SCRIPT_DECODE_FAILED]" := by
  refine ⟨?_, ?_, rfl⟩
  · intro script asm hfail
    unfold decode_script
    rw [hfail]
    simp
  · intro script asm hfail
    unfold decode_script
    rw [hfail]
    simp

/-- Witness for C2 at the truncated-PUSHDATA1 script. -/
theorem decode_script_sentinel_witness :
    (decodeLoopF 2 [0xac, 0x4c] false 0 []).2 = true ∧
    decode_script [0xac, 0x4c] false =
      String.intercalate " "
        ((decodeLoopF 2 [0xac, 0x4c] false 0 []).1 ++ ["[SCRIPT_DECODE_FAILED]"]) :=
  ⟨rfl, decode_script_sentinel_shape.1 [0xac, 0x4c] false rfl⟩

/-- C5: removing the nowhere-occurring two-byte pattern `ff ff` from the
four-byte script `OP_EQUAL <push-2 41 42>` drops the trailing byte `42`:
the final non-match branch appends only `len(sub)` bytes of the remaining
window (`script[k:k+ls]`) instead of the whole remainder, so a script
containing no occurrence of the pattern is not returned untouched. -/
theorem delete_from_script_truncates_tail :
    delete_from_script [0x87, 0x02, 0x41, 0x42] [0xff, 0xff] =
      Except.ok [0x87, 0x02, 0x41] ∧
    ¬ List.IsInfix [0xff, 0xff] [0x87, 0x02, 0x41, 0x42] ∧
    ([0x87, 0x02, 0x41] : List Nat) ≠ [0x87, 0x02, 0x41, 0x42] :=
  ⟨rfl, by decide, by decide⟩

